import Mathlib

/-!
Shallow embedding of the core logic of the perplexity-mcp server
(`src/index.ts`): query-complexity classification, missing-detail
detection, tool resolution, prompt construction, and response
post-processing, together with theorems settling the specification
claims about them.

The JavaScript regular-expression tests are embedded by a small
explicit matcher over character lists.  All regexes in the source
carry the `i` flag, so matching is performed on the lower-cased
character sequence with lower-cased literals; `[A-Z]` / `[a-z]`
classes fold to "ASCII letter" exactly as the `i` flag makes them.
-/

namespace PerplexityMcp

/-- ASCII-fold a string, mirroring `query.toLowerCase()` /
case-insensitive regex matching on ASCII input. -/
def strLower (s : String) : String := String.mk (s.toList.map Char.toLower)

/-- Does the second list start with the first? -/
def leadsWith : List Char → List Char → Bool
  | [], _ => true
  | _ :: _, [] => false
  | a :: as, b :: bs => a == b && leadsWith as bs

/-- Does the character sequence `sub` occur contiguously inside `l`? -/
def containsSeq (sub : List Char) : List Char → Bool
  | [] => leadsWith sub []
  | c :: cs => leadsWith sub (c :: cs) || containsSeq sub cs

/-- `containsStr hay sub`: does `sub` occur as a substring of `hay`?
Mirrors the JS `String.prototype.includes` / literal-alternative regex test. -/
def containsStr (hay sub : String) : Bool := containsSeq sub.toList hay.toList

/-- One element of a regular-expression pattern: a single character
from a class, zero-or-more of a class (`*`), or one-or-more (`+`). -/
inductive RE where
  | cls (p : Char → Bool)
  | star (p : Char → Bool)
  | plus (p : Char → Bool)

/-- Fueled front-of-input matcher.  Every recursive call strictly
decreases `ps.length + cs.length` (a `plus` item steps to a `star` item
of the same count), so fuel `ps.length + cs.length + 1` always
suffices; the fuel only makes the recursion structural so that the
kernel can evaluate it. -/
def matchHereF : Nat → List RE → List Char → Bool
  | 0, _, _ => false
  | _ + 1, [], _ => true
  | _ + 1, RE.cls _ :: _, [] => false
  | f + 1, RE.cls p :: ps, c :: cs => p c && matchHereF f ps cs
  | _ + 1, RE.plus _ :: _, [] => false
  | f + 1, RE.plus p :: ps, c :: cs => p c && matchHereF f (RE.star p :: ps) cs
  | f + 1, RE.star _ :: ps, [] => matchHereF f ps []
  | f + 1, RE.star p :: ps, c :: cs =>
      matchHereF f ps (c :: cs) || (p c && matchHereF f (RE.star p :: ps) cs)

/-- Does some decomposition of the input match the pattern sequence at
the front?  This is the nondeterministic (existence-of-a-match)
semantics, which agrees with JS backtracking for `RegExp.test`. -/
def matchHere (ps : List RE) (cs : List Char) : Bool :=
  matchHereF (ps.length + cs.length + 1) ps cs

/-- Unanchored match: does the pattern match starting at some position?
Mirrors `RegExp.prototype.test`. -/
def matchSome (ps : List RE) : List Char → Bool
  | [] => matchHere ps []
  | c :: cs => matchHere ps (c :: cs) || matchSome ps cs

/-- A literal character sequence as a pattern. -/
def lit (s : String) : List RE := s.toList.map (fun a => RE.cls (fun c => c == a))

/-- JS `\s`: the ECMAScript whitespace and line-terminator set. -/
def isJsWhitespace (c : Char) : Bool :=
  let n := c.toNat
  n == 32 || n == 9 || n == 10 || n == 13 || n == 11 || n == 12 ||
  n == 0xa0 || n == 0x1680 ||
  (decide (0x2000 ≤ n) && decide (n ≤ 0x200a)) ||
  n == 0x2028 || n == 0x2029 || n == 0x202f || n == 0x205f ||
  n == 0x3000 || n == 0xfeff

/-- JS `\w`: ASCII letters, digits and underscore. -/
def isWordChar (c : Char) : Bool := c.isAlpha || c.isDigit || c == '_'

/-- `[a-z]` / `[A-Z]` under the `i` flag: any ASCII letter (applied to
the case-folded input, where it reduces to the lower-case range). -/
def isLetterCI (c : Char) : Bool := c.isLower || c.isUpper

/-- `hasErrors`: error vocabulary or an error-message-shaped substring
(`/error|exception|failure|crash|traceback|stack trace|failed/i` or
`/Error:|Exception:|at\s+\w+\.\w+/i`). -/
def hasErrors (query : String) : Bool :=
  let L := (strLower query).toList
  (["error", "exception", "failure", "crash", "traceback", "stack trace",
    "failed"].any fun kw => containsSeq kw.toList L) ||
  (containsSeq "error:".toList L || containsSeq "exception:".toList L ||
   matchSome (lit "at" ++ [RE.plus isJsWhitespace, RE.plus isWordChar] ++
              lit "." ++ [RE.plus isWordChar]) L)

/-- `hasCode`: fenced code, declaration keywords, call-shaped or
property-assignment-shaped substrings. -/
def hasCode (query : String) : Bool :=
  let L := (strLower query).toList
  containsSeq "```".toList L ||
  matchSome (lit "function" ++ [RE.plus isJsWhitespace, RE.plus isWordChar]) L ||
  matchSome (lit "const" ++ [RE.plus isJsWhitespace, RE.plus isWordChar]) L ||
  matchSome (lit "let" ++ [RE.plus isJsWhitespace, RE.plus isWordChar]) L ||
  matchSome (lit "var" ++ [RE.plus isJsWhitespace, RE.plus isWordChar]) L ||
  matchSome (lit "import" ++ [RE.plus isJsWhitespace]) L ||
  containsSeq "require(".toList L ||
  matchSome (lit "." ++ [RE.plus isWordChar] ++ lit "(") L ||
  matchSome ([RE.cls isLetterCI, RE.star isWordChar] ++ lit "(" ++
             [RE.star (fun c => !(c == ')'))] ++ lit ")") L ||
  matchSome ([RE.plus isWordChar] ++ lit "." ++
             [RE.plus isWordChar, RE.star isJsWhitespace] ++ lit "=") L

/-- `hasVersions`: `/\d+\.\d+(\.\d+)?/i` (the optional group expanded
into its two alternatives) or `/version\s*\d+|v\d+/i`. -/
def hasVersions (query : String) : Bool :=
  let L := (strLower query).toList
  matchSome ([RE.plus Char.isDigit] ++ lit "." ++ [RE.plus Char.isDigit] ++
             lit "." ++ [RE.plus Char.isDigit]) L ||
  matchSome ([RE.plus Char.isDigit] ++ lit "." ++ [RE.plus Char.isDigit]) L ||
  matchSome (lit "version" ++ [RE.star isJsWhitespace, RE.plus Char.isDigit]) L ||
  matchSome (lit "v" ++ [RE.plus Char.isDigit]) L

/-- `hasSpecificNames`: `/[A-Z][a-z]+[A-Z]|\.\w+\(|::\w+|api\.|sdk\./i`.
Because of the `i` flag the first alternative matches any run of three
or more ASCII letters. -/
def hasSpecificNames (query : String) : Bool :=
  let L := (strLower query).toList
  matchSome [RE.cls isLetterCI, RE.plus isLetterCI, RE.cls isLetterCI] L ||
  matchSome (lit "." ++ [RE.plus isWordChar] ++ lit "(") L ||
  matchSome (lit "::" ++ [RE.plus isWordChar]) L ||
  containsSeq "api.".toList L ||
  containsSeq "sdk.".toList L

/-- `hasLogs`: log vocabulary AND (length over 100 or a line break). -/
def hasLogs (query : String) : Bool :=
  (["log", "console", "output", "print", "trace", "debug"].any
    fun kw => containsSeq kw.toList (strLower query).toList) &&
  (decide (query.length > 100) || query.toList.contains '\n')

/-- `hasEnvironment`: named platform/runtime/framework keywords. -/
def hasEnvironment (query : String) : Bool :=
  ["node", "python", "java", "javascript", "typescript", "react", "vue",
   "angular", "linux", "windows", "macos", "ubuntu", "docker"].any
    fun kw => containsSeq kw.toList (strLower query).toList

/-- `seemsTechnical`: errors, code, or generic problem-solving words. -/
def seemsTechnical (query : String) : Bool :=
  hasErrors query || hasCode query ||
  ["problem", "issue", "bug", "fix", "solution", "how to", "why",
   "debug"].any fun kw => containsSeq kw.toList (strLower query).toList

/-- The entries pushed by rules 1-4 of `detectMissingDetails`, in the
source's push order. -/
def baseDetails (query : String) : List String :=
  (if hasErrors query && !hasCode query && !hasLogs query then
     ["code snippets showing the error context",
      "relevant logs or stack traces"]
   else []) ++
  (if !hasVersions query && (hasCode query || hasEnvironment query) then
     ["version numbers (framework, library, runtime versions)"]
   else []) ++
  (if !hasSpecificNames query && (hasCode query || hasErrors query) then
     ["exact function names, API endpoints, or library names"]
   else []) ++
  (if hasErrors query && !hasEnvironment query then
     ["environment details (OS, runtime version, framework)"]
   else [])

/-- The entries pushed by the final rule: only when the query seems
technical, nothing was pushed yet, and the query is short with neither
code nor errors. -/
def lateDetails (query : String) : List String :=
  if seemsTechnical query && (baseDetails query).isEmpty &&
     decide (query.length < 50) && !hasCode query && !hasErrors query then
    ["specific error messages or code snippets",
     "exact terminology and context"]
  else []

/-- `detectMissingDetails`: the ordered list of missing-detail entries. -/
def detectMissingDetails (query : String) : List String :=
  baseDetails query ++ lateDetails query

/-- Query classification result. -/
inductive Complexity where
  | simple
  | complex
  | research
deriving DecidableEq, Repr

/-- The fixed research-indicator list from `determineQueryComplexity`. -/
def researchIndicators : List String :=
  ["analyze", "research", "investigate", "study", "examine", "explore",
   "comprehensive", "detailed", "in-depth", "thorough",
   "compare and contrast", "evaluate", "assess"]

/-- The fixed complex-indicator list from `determineQueryComplexity`. -/
def complexIndicators : List String :=
  ["how", "why", "what if", "explain", "solve", "steps to",
   "difference between", "compare", "which is better",
   "pros and cons", "advantages", "disadvantages"]

/-- `determineQueryComplexity`: research indicators first, then complex
indicators, else simple.  Matching is case-insensitive substring
containment. -/
def determineQueryComplexity (query : String) : Complexity :=
  let ql := strLower query
  if researchIndicators.any (fun ind => containsStr ql ind) then
    Complexity.research
  else if complexIndicators.any (fun ind => containsStr ql ind) then
    Complexity.complex
  else
    Complexity.simple

/-- The model-selection block of the call-tool handler: promote a
`search` request by classification unless `force_model` is set. -/
def resolveTool (name query : String) (forceModel : Bool) : String :=
  if !forceModel && name == "search" then
    match determineQueryComplexity query with
    | Complexity.complex => "reason"
    | Complexity.research => "deep_research"
    | Complexity.simple => "search"
  else name

/-- The `search` prompt template (model `sonar-pro`). -/
def searchPrompt (query : String) : String :=
  "You are answering a query that contains specific details like error messages, logs, code snippets, exact terminology, version numbers, and context. Use all provided details to give the most accurate answer possible.\n\nQuery: " ++
  query ++
  "\n\nProvide a clear, concise answer that directly addresses the specific details in the query."

/-- The `reason` prompt template (model `sonar-reasoning-pro`). -/
def reasonPrompt (query : String) : String :=
  "You are answering a query that contains specific details like error messages, logs, code snippets, exact terminology, version numbers, and context. Carefully analyze all provided details to give the most accurate and helpful answer.\n\nQuery: " ++
  query ++
  "\n\nProvide a detailed explanation and analysis that:\n1. Addresses the specific details provided (errors, logs, code, versions, etc.)\n2. Includes step-by-step reasoning based on the actual context\n3. Identifies key considerations relevant to the specific situation\n4. Provides relevant examples matching the described scenario\n5. Offers practical implications based on the exact details provided\n6. Suggests potential alternatives or solutions tailored to the specific context"

/-- The opening of the `deep_research` prompt, ending with the embedded
query. -/
def deepResearchBase (query : String) : String :=
  "You are answering a research query that contains specific details like error messages, logs, code snippets, exact terminology, version numbers, and context. Use all provided details to conduct the most accurate and comprehensive research.\n\nResearch Query: " ++
  query

/-- The closing instruction block of the `deep_research` prompt. -/
def deepResearchClosing : String :=
  "\n\nProvide a detailed analysis that:\n1. Incorporates and addresses all specific details provided (errors, logs, code, versions, configurations, etc.)\n2. Provides background and context relevant to the specific scenario described\n3. Defines key concepts and terminology matching the exact terms used\n4. Presents the current state of knowledge relevant to the specific problem or topic\n5. Explores different perspectives applicable to the described situation\n6. Covers recent developments that relate to the specific details provided\n7. Discusses practical applications relevant to the exact context\n8. Identifies challenges and limitations specific to the scenario\n9. Suggests future directions or solutions based on the specific details\n10. Includes expert opinions and references to sources that address the specific issue\n11. Tailors all recommendations to the exact technical context, versions, and environment described"

/-- The `deep_research` prompt: base with embedded query, then a
1-based numbered focus-area list only when focus areas were supplied,
then the closing instruction block. -/
def deepResearchPrompt (query : String) (focusAreas : List String) : String :=
  (if focusAreas.length > 0 then
     deepResearchBase query ++
       ("\n\nFocus areas:\n" ++
        String.intercalate "\n"
          (focusAreas.enum.map fun p => toString (p.1 + 1) ++ ". " ++ p.2))
   else deepResearchBase query) ++
  deepResearchClosing

/-- The switch over the resolved tool name: the backend model
identifier and the prompt, or `none` for the default branch. -/
def selectModelPrompt (tool query : String) (focusAreas : List String) :
    Option (String × String) :=
  if tool == "search" then some ("sonar-pro", searchPrompt query)
  else if tool == "reason" then some ("sonar-reasoning-pro", reasonPrompt query)
  else if tool == "deep_research" then
    some ("sonar-deep-research", deepResearchPrompt query focusAreas)
  else none

/-- A backend completion result: the answer text and the optional
`citations` field (absent, or present with a possibly empty list). -/
structure CompletionResult where
  content : String
  citations : Option (List String)

/-- The numbered citation lines, `{1-based index}: {citation}`, joined
by newlines in backend-return order. -/
def citationLines (cs : List String) : String :=
  String.intercalate "\n" (cs.enum.map fun p => toString (p.1 + 1) ++ ": " ++ p.2)

/-- `sourcesText`: the Sources section.  The source tests
`response.data.citations ?`, i.e. field presence (a present empty array
is truthy in JS), not non-emptiness of the list. -/
def sourcesTextOf : Option (List String) → String
  | some cs => "\n\n## Sources\nPlease keep the numbered citations inline.\n" ++
      citationLines cs
  | none => ""

/-- The missing-detail note appended when the detail-gap list is
non-empty: a delimited note with a 1-based numbered gap list and an
invitation to re-ask. -/
def detailNoteOf (missing : List String) : String :=
  if missing.length > 0 then
    "\n\n---\n\n**Note**: I didn\x27t have the following details which would help provide a more specific and accurate answer:\n\n" ++
    String.intercalate "\n"
      (missing.enum.map fun p => toString (p.1 + 1) ++ ". " ++ p.2) ++
    "\n\nIf you\x27d like a more precise response, please provide these details and ask again."
  else ""

/-- `responseText` assembly: answer text, then Sources section, then
missing-detail note for the original query. -/
def buildResponseText (query : String) (res : CompletionResult) : String :=
  res.content ++ sourcesTextOf res.citations ++
    detailNoteOf (detectMissingDetails query)

/-- Discriminated error kinds surfaced through the protocol layer. -/
inductive ErrCode where
  | methodNotFound
  | internalError
deriving DecidableEq, Repr

/-- Outcome of one call-tool invocation: a text payload or a structured
error. -/
inductive HandlerOutcome where
  | success (text : String)
  | mcpError (code : ErrCode) (message : String)
deriving DecidableEq, Repr

/-- The call-tool request handler: resolve the tool, build model and
prompt (method-not-found for an unknown tool), invoke the backend
(collaborator, modelled as a function to `Except`), and post-process;
a backend failure surfaces the upstream message inside the fixed
internal-error wrapper. -/
def handleCallTool (name query : String) (forceModel : Bool)
    (focusAreas : List String)
    (backend : String → String → Except String CompletionResult) :
    HandlerOutcome :=
  match selectModelPrompt (resolveTool name query forceModel) query focusAreas with
  | none => HandlerOutcome.mcpError ErrCode.methodNotFound ("Unknown tool: " ++ name)
  | some (model, prompt) =>
    match backend model prompt with
    | Except.error msg =>
        HandlerOutcome.mcpError ErrCode.internalError
          ("Perplexity API error: " ++ msg)
    | Except.ok res => HandlerOutcome.success (buildResponseText query res)

/-- The seven canned missing-detail strings of `detectMissingDetails`. -/
def cannedDetails : List String :=
  ["code snippets showing the error context",
   "relevant logs or stack traces",
   "version numbers (framework, library, runtime versions)",
   "exact function names, API endpoints, or library names",
   "environment details (OS, runtime version, framework)",
   "specific error messages or code snippets",
   "exact terminology and context"]

/-- The five strings pushable by rules 1-4, in rule order. -/
def ruleOrderDetails : List String :=
  ["code snippets showing the error context",
   "relevant logs or stack traces",
   "version numbers (framework, library, runtime versions)",
   "exact function names, API endpoints, or library names",
   "environment details (OS, runtime version, framework)"]

/-- A conditionally pushed segment is a sublist of the segment. -/
theorem ite_append_sublist (c : Prop) [Decidable c] (l : List String) :
    List.Sublist (if c then l else []) l := by
  split
  · exact List.Sublist.refl l
  · exact List.nil_sublist l

/-- The rule-1-to-4 output is a sublist of the five strings in rule
order. -/
theorem baseDetails_sublist (query : String) :
    List.Sublist (baseDetails query) ruleOrderDetails := by
  show List.Sublist (baseDetails query)
    (["code snippets showing the error context",
      "relevant logs or stack traces"] ++
     ["version numbers (framework, library, runtime versions)"] ++
     ["exact function names, API endpoints, or library names"] ++
     ["environment details (OS, runtime version, framework)"])
  unfold baseDetails
  exact List.Sublist.append
    (List.Sublist.append
      (List.Sublist.append (ite_append_sublist _ _) (ite_append_sublist _ _))
      (ite_append_sublist _ _))
    (ite_append_sublist _ _)

/-- The final rule yields nothing, or yields its fixed pair while the
earlier rules yielded nothing. -/
theorem lateDetails_cases (query : String) :
    lateDetails query = [] ∨
    (baseDetails query = [] ∧
     lateDetails query = ["specific error messages or code snippets",
                          "exact terminology and context"]) := by
  unfold lateDetails
  split
  · rename_i h
    simp only [Bool.and_eq_true] at h
    right
    exact ⟨List.isEmpty_iff.mp h.1.1.1.2, rfl⟩
  · left; rfl

/-- Claim C1: if `force_model` is true or the requested operation is
not `search`, the resolved operation equals the requested operation;
if the requested operation is `search` and `force_model` is false,
classification `complex` resolves to `reason`, `research` to
`deep_research`, and `simple` leaves it at `search`. -/
theorem claim1_dispatcher_resolution (name query : String) (forceModel : Bool) :
    ((forceModel = true ∨ name ≠ "search") →
       resolveTool name query forceModel = name) ∧
    (name = "search" → forceModel = false →
       (determineQueryComplexity query = Complexity.complex →
          resolveTool name query forceModel = "reason") ∧
       (determineQueryComplexity query = Complexity.research →
          resolveTool name query forceModel = "deep_research") ∧
       (determineQueryComplexity query = Complexity.simple →
          resolveTool name query forceModel = "search")) := by
  constructor
  · rintro (h | h) <;> simp [resolveTool, h]
  · rintro rfl rfl
    refine ⟨fun hc => ?_, fun hc => ?_, fun hc => ?_⟩ <;> simp [resolveTool, hc]

/-- Witness for C1: a forced `reason` request stays `reason`, and an
unforced `search` request on a research-classified query is promoted
to `deep_research`. -/
theorem claim1_dispatcher_resolution_witness :
    resolveTool "reason" "analyze this" true = "reason" ∧
    resolveTool "search" "Compare and contrast REST and GraphQL" false =
      "deep_research" :=
  ⟨(claim1_dispatcher_resolution "reason" "analyze this" true).1 (Or.inl rfl),
   (((claim1_dispatcher_resolution "search"
        "Compare and contrast REST and GraphQL" false).2 rfl rfl).2.1)
     (by decide)⟩

/-- Claim C2: a query whose lower-cased text contains a
research-indicator substring classifies as `research` (even if a
complex indicator also matches); one containing a complex-indicator
substring and no research indicator classifies as `complex`; one
containing neither classifies as `simple`. -/
theorem claim2_classifier_priority (query : String) :
    (researchIndicators.any (fun ind => containsStr (strLower query) ind) = true →
       determineQueryComplexity query = Complexity.research) ∧
    (researchIndicators.any (fun ind => containsStr (strLower query) ind) = false →
       complexIndicators.any (fun ind => containsStr (strLower query) ind) = true →
       determineQueryComplexity query = Complexity.complex) ∧
    (researchIndicators.any (fun ind => containsStr (strLower query) ind) = false →
       complexIndicators.any (fun ind => containsStr (strLower query) ind) = false →
       determineQueryComplexity query = Complexity.simple) := by
  refine ⟨fun h => ?_, fun h1 h2 => ?_, fun h1 h2 => ?_⟩
  · simp [determineQueryComplexity, h]
  · simp [determineQueryComplexity, h1, h2]
  · simp [determineQueryComplexity, h1, h2]

/-- Witness for C2: a query containing both a research indicator
(`analyze`) and a complex indicator (`how`) classifies as research. -/
theorem claim2_classifier_priority_witness :
    determineQueryComplexity "analyze how it works" = Complexity.research :=
  (claim2_classifier_priority "analyze how it works").1 (by decide)

/-- Counterexample to C3 as stated: when the backend returns a present
but empty citations array (truthy in JS), the final text does contain
the Sources section even though the citation list is empty, so the
section is not present "iff the citation list is non-empty". -/
theorem claim3_sources_counterexample :
    ¬ ((containsStr
          (buildResponseText "What is the capital of France?"
            { content := "ans", citations := some [] }) "## Sources" = true) ↔
       ([] : List String) ≠ []) := by decide

/-- Claim C3 as amended: the Sources section is present iff the
citations field is present (`some`), even when the list is empty; when
present it is the fixed instructional line followed by one line per
citation of the form `{1-based index}: {citation}` in backend-return
order. -/
theorem claim3_sources_section (query : String) (res : CompletionResult) :
    (res.citations = none →
       buildResponseText query res =
         res.content ++ detailNoteOf (detectMissingDetails query)) ∧
    (∀ cs, res.citations = some cs →
       buildResponseText query res =
         res.content ++
           ("\n\n## Sources\nPlease keep the numbered citations inline.\n" ++
             citationLines cs) ++
           detailNoteOf (detectMissingDetails query)) ∧
    citationLines ["http://x", "http://y"] = "1: http://x\n2: http://y" := by
  refine ⟨fun h => ?_, fun cs h => ?_, by decide⟩
  · simp [buildResponseText, sourcesTextOf, h]
  · simp [buildResponseText, sourcesTextOf, h]

/-- Witness for the amended C3, at a singleton citation list. -/
theorem claim3_sources_section_witness :
    buildResponseText "What is the capital of France?"
        { content := "ans", citations := some ["http://x"] } =
      "ans" ++
        ("\n\n## Sources\nPlease keep the numbered citations inline.\n" ++
          citationLines ["http://x"]) ++
        detailNoteOf (detectMissingDetails "What is the capital of France?") :=
  (claim3_sources_section "What is the capital of France?"
    { content := "ans", citations := some ["http://x"] }).2.1 ["http://x"] rfl

/-- Claim C4: whenever the code-signal or error-signal holds and the
name-signal does not, the detail-gap list includes the entry about
exact function, API, or library names (rule 3). -/
theorem claim4_missing_names_rule (query : String)
    (hname : hasSpecificNames query = false)
    (hsig : (hasCode query || hasErrors query) = true) :
    "exact function names, API endpoints, or library names" ∈
      detectMissingDetails query := by
  simp [detectMissingDetails, baseDetails, hname, hsig]

/-- Witness for C4: `f()` trips the code-signal but not the
name-signal, so the names entry is reported. -/
theorem claim4_missing_names_rule_witness :
    hasSpecificNames "f()" = false ∧
    "exact function names, API endpoints, or library names" ∈
      detectMissingDetails "f()" :=
  ⟨by decide, claim4_missing_names_rule "f()" (by decide) (by decide)⟩

/-- Claim C5: when the error-signal holds and neither the code-signal
nor the log-signal holds, the detail-gap list starts with the code
snippets entry followed by the logs entry, in that order; in
particular "How do I fix this error?" yields a non-empty list
containing both. -/
theorem claim5_error_without_code_rule :
    (∀ query, hasErrors query = true → hasCode query = false →
       hasLogs query = false →
       ∃ rest, detectMissingDetails query =
         "code snippets showing the error context" ::
         "relevant logs or stack traces" :: rest) ∧
    ("code snippets showing the error context" ∈
       detectMissingDetails "How do I fix this error?" ∧
     "relevant logs or stack traces" ∈
       detectMissingDetails "How do I fix this error?" ∧
     detectMissingDetails "How do I fix this error?" ≠ []) := by
  constructor
  · intro q he hc hl
    unfold detectMissingDetails baseDetails
    rw [he, hc, hl]
    exact ⟨_, rfl⟩
  · exact ⟨by decide, by decide, by decide⟩

/-- Witness for C5, at the query from the spec example. -/
theorem claim5_error_without_code_rule_witness :
    ∃ rest, detectMissingDetails "How do I fix this error?" =
      "code snippets showing the error context" ::
      "relevant logs or stack traces" :: rest :=
  claim5_error_without_code_rule.1 "How do I fix this error?"
    (by decide) (by decide) (by decide)

/-- Claim C6: the `deep_research` prompt with focus areas `["A","B"]`
carries the numbered list `1. A`, `2. B` between the embedded query
and the closing instruction block, and carries no focus-area section
when no focus areas are supplied. -/
theorem claim6_deep_research_focus (query : String) :
    deepResearchPrompt query ["A", "B"] =
      (deepResearchBase query ++ "\n\nFocus areas:\n1. A\n2. B") ++
        deepResearchClosing ∧
    deepResearchPrompt query [] =
      deepResearchBase query ++ deepResearchClosing := by
  constructor
  · unfold deepResearchPrompt
    rw [if_pos (by decide)]
    congr 1
  · unfold deepResearchPrompt
    rw [if_neg (by decide)]

/-- Claim C7: the final text is always the answer text, then the
Sources section, then the missing-detail note, and the note is empty
iff the detail-gap list for the original query is empty. -/
theorem claim7_response_assembly (query : String) (res : CompletionResult) :
    buildResponseText query res =
      res.content ++ sourcesTextOf res.citations ++
        detailNoteOf (detectMissingDetails query) ∧
    (detailNoteOf (detectMissingDetails query) = "" ↔
       detectMissingDetails query = []) := by
  refine ⟨rfl, ?_⟩
  cases hd : detectMissingDetails query with
  | nil => simp [detailNoteOf]
  | cons a t =>
      simp only [detailNoteOf, List.length_cons]
      rw [if_pos (Nat.succ_pos _)]
      constructor
      · intro h
        have hlen := congrArg String.length h
        simp [String.length_append] at hlen
        exact absurd hlen.2 (by decide)
      · intro h
        cases h

/-- Claim C8: a failed backend call yields only the structured
internal error embedding the upstream message verbatim; a successful
call yields exactly the fully post-processed text. -/
theorem claim8_backend_error (name query : String) (force : Bool)
    (focus : List String)
    (backend : String → String → Except String CompletionResult)
    (model prompt : String)
    (hsel : selectModelPrompt (resolveTool name query force) query focus =
      some (model, prompt)) :
    (∀ msg, backend model prompt = Except.error msg →
       handleCallTool name query force focus backend =
         HandlerOutcome.mcpError ErrCode.internalError
           ("Perplexity API error: " ++ msg)) ∧
    (∀ res, backend model prompt = Except.ok res →
       handleCallTool name query force focus backend =
         HandlerOutcome.success (buildResponseText query res)) := by
  constructor <;> intro x hx <;> simp [handleCallTool, hsel, hx]

/-- Witness for C8: a backend that fails with `boom` surfaces only the
wrapped internal error. -/
theorem claim8_backend_error_witness :
    handleCallTool "search" "hi" true [] (fun _ _ => Except.error "boom") =
      HandlerOutcome.mcpError ErrCode.internalError "Perplexity API error: boom" :=
  (claim8_backend_error "search" "hi" true [] (fun _ _ => Except.error "boom")
    "sonar-pro" (searchPrompt "hi") rfl).1 "boom" rfl

/-- Claim C9: a requested operation name other than the three tools
yields a method-not-found error naming the unknown tool, regardless of
the backend (so the backend is never consulted and no default is
substituted). -/
theorem claim9_unknown_tool (name query : String) (force : Bool)
    (focus : List String)
    (backend : String → String → Except String CompletionResult)
    (h1 : name ≠ "search") (h2 : name ≠ "reason")
    (h3 : name ≠ "deep_research") :
    handleCallTool name query force focus backend =
      HandlerOutcome.mcpError ErrCode.methodNotFound ("Unknown tool: " ++ name) := by
  have hres : resolveTool name query force = name := by
    simp [resolveTool, h1]
  simp [handleCallTool, hres, selectModelPrompt, h1, h2, h3]

/-- Witness for C9, at the unknown tool name `fetch`. -/
theorem claim9_unknown_tool_witness :
    handleCallTool "fetch" "q" false [] (fun _ _ => Except.error "e") =
      HandlerOutcome.mcpError ErrCode.methodNotFound "Unknown tool: fetch" :=
  claim9_unknown_tool "fetch" "q" false [] (fun _ _ => Except.error "e")
    (by decide) (by decide) (by decide)

/-- Claim C10: the detail-gap list has at most five entries, all drawn
from the seven canned strings; it is a sublist of the rule-1-to-4
strings in rule order unless the final rule fired, in which case it is
exactly that rule's pair, so the final rule's entries never co-occur
with any other entry. -/
theorem claim10_detail_gap_invariant (query : String) :
    (detectMissingDetails query).length ≤ 5 ∧
    (∀ s ∈ detectMissingDetails query, s ∈ cannedDetails) ∧
    (List.Sublist (detectMissingDetails query) ruleOrderDetails ∨
       detectMissingDetails query =
         ["specific error messages or code snippets",
          "exact terminology and context"]) ∧
    (("specific error messages or code snippets" ∈ detectMissingDetails query ∨
      "exact terminology and context" ∈ detectMissingDetails query) →
      detectMissingDetails query =
        ["specific error messages or code snippets",
         "exact terminology and context"]) := by
  have hcanned : ∀ s ∈ ruleOrderDetails, s ∈ cannedDetails := by decide
  rcases lateDetails_cases query with hl | ⟨hbe, hl⟩
  · have hd : detectMissingDetails query = baseDetails query := by
      simp [detectMissingDetails, hl]
    have hsub : List.Sublist (detectMissingDetails query) ruleOrderDetails := by
      rw [hd]; exact baseDetails_sublist query
    refine ⟨le_trans hsub.length_le (by decide),
      fun s hs => hcanned s (hsub.subset hs), Or.inl hsub, fun hmem => ?_⟩
    exfalso
    rcases hmem with hm | hm
    · exact absurd (hsub.subset hm) (by decide)
    · exact absurd (hsub.subset hm) (by decide)
  · have hd : detectMissingDetails query =
        ["specific error messages or code snippets",
         "exact terminology and context"] := by
      simp [detectMissingDetails, hbe, hl]
    refine ⟨by rw [hd]; decide, fun s hs => ?_, Or.inr hd, fun _ => hd⟩
    rw [hd] at hs
    simp only [List.mem_cons, List.not_mem_nil, or_false] at hs
    rcases hs with rfl | rfl <;> decide

/-- Witness for C10: on a short technical query the final rule fires
and the list is exactly its pair. -/
theorem claim10_detail_gap_invariant_witness :
    detectMissingDetails "why though" =
      ["specific error messages or code snippets",
       "exact terminology and context"] :=
  (claim10_detail_gap_invariant "why though").2.2.2 (Or.inl (by decide))

end PerplexityMcp
